import Mathlib

/-!
Verification of the `generic-cursors` traversal-cursor library.

Shallow embedding conventions:
* Nodes and the cells wrapping them are identified by natural numbers; a
  node's "contents" are modelled by its identifier (all claims concern stack
  and lock mechanics, never the payload).  A navigation closure
  `&mut T -> Option<&...>` becomes a Lean function `Nat → Option Nat` from the
  current top's identifier to the identifier of the target cell.
* A cursor's frame stack (`Vec` in the source) is a `List Nat` in `Vec`
  order: index 0 is the root, the last element is the top; `push` appends.
* `RefCell` borrow state is the list of currently mut-borrowed cell ids;
  `Mutex` state is the list of currently locked ids plus the list of
  poisoned ids.  Dropping a guard erases its id (Rust drop of
  `RefMut`/`MutexGuard`; a normal guard drop never changes the poison flag).
* Stateful operations are state-passing functions returning
  `result × new-state`.  Branches that Rust marks `unreachable!()` (panic on
  an empty stack, which the root-never-popped invariant rules out) are
  modelled as no-ops and never relied upon: every theorem that could touch
  them carries a nonemptiness hypothesis.
* Loops (`ascend_while`, the `to_root`/`Drop` pop loops) are modelled by
  structural recursion, with an explicit iteration bound (`fuel`) equal to
  the stack length where the Rust loop's termination measure is the
  shrinking stack; the bound is always sufficient, so the semantics agree.
-/

/-! ### Simple backend: `MutRefStack` (src/simple.rs) -/

/-- Top of a frame stack, `data.last().unwrap()` in the source (the stack is
never empty there; `0` is a dummy for the unreachable empty case). -/
def stop (s : List Nat) : Nat := s.getLastD 0

/-- `MutRefStack::descend_with`: apply the navigation closure to the top;
on `Some`, push the returned node. -/
def sDescendWith (f : Nat → Option Nat) (s : List Nat) :
    Option Nat × List Nat :=
  match f (stop s) with
  | none => (none, s)
  | some v => (some v, s ++ [v])

/-- `MutRefStack::inject_top`: unconditionally push the supplied
root-lifetime reference. -/
def sInjectTop (v : Nat) (s : List Nat) : List Nat := s ++ [v]

/-- `MutRefStack::ascend`: at more than one frame, pop and return the new
top; at the root (one frame), return `None` and leave the stack unchanged.
(The zero-frame case is `unreachable!()` in the source.) -/
def sAscend (s : List Nat) : Option Nat × List Nat :=
  if 1 < s.length then (some (stop s.dropLast), s.dropLast) else (none, s)

/-- One step of `MutRefStack::ascend_while`'s loop, bounded by `fuel`
(instrumented with the number of ascends performed; the source loop runs
`while !is_at_root && predicate(top)` and each iteration pops one frame, so
`fuel = initial length` always suffices). -/
def sAscendWhileFuel (p : Nat → Bool) : Nat → List Nat → List Nat × Nat
  | 0, s => (s, 0)
  | fuel + 1, s =>
    if 1 < s.length then
      if p (stop s) then
        let r := sAscendWhileFuel p fuel (sAscend s).2
        (r.1, r.2 + 1)
      else (s, 0)
    else (s, 0)

/-- `MutRefStack::ascend_while`, returning the final stack and the number of
ascends performed. -/
def sAscendWhile (p : Nat → Bool) (s : List Nat) : List Nat × Nat :=
  sAscendWhileFuel p s.length s

/-- `MoveDecision` for the simple backend. -/
inductive SMove where
  | ascend
  | stay
  | descend (v : Nat)
  | inject (v : Nat)

/-- `MoveError` for the simple backend. -/
inductive SMoveError where
  | ascendAtRoot
deriving DecidableEq

/-- `MutRefStack::move_with`: dispatch on the decision closure's result. -/
def sMoveWith (d : Nat → SMove) (s : List Nat) :
    Except SMoveError Nat × List Nat :=
  match d (stop s) with
  | .ascend =>
    match sAscend s with
    | (none, s') => (.error .ascendAtRoot, s')
    | (some t, s') => (.ok t, s')
  | .stay => (.ok (stop s), s)
  | .descend v => (.ok v, s ++ [v])
  | .inject v => (.ok v, s ++ [v])

/-- `MutRefStack::to_root`: `data.truncate(1)` (no guards to release on this
backend). -/
def sToRoot (s : List Nat) : List Nat := s.take 1

/-- A descend-or-ascend call on the simple backend, for reasoning about
call sequences. -/
inductive SOp where
  | descend (f : Nat → Option Nat)
  | ascend

/-- Run a sequence of descend/ascend calls. -/
def srun : List SOp → List Nat → List Nat
  | [], s => s
  | .descend f :: ops, s => srun ops (sDescendWith f s).2
  | .ascend :: ops, s => srun ops (sAscend s).2

/-- Number of successful descends in a call sequence (a descend succeeds
when the navigation closure returns `Some`). -/
def scountD : List SOp → List Nat → Nat
  | [], _ => 0
  | .descend f :: ops, s =>
    (if (sDescendWith f s).1.isSome then 1 else 0) +
      scountD ops (sDescendWith f s).2
  | .ascend :: ops, s => scountD ops (sAscend s).2

/-- Number of successful ascends in a call sequence (an ascend succeeds
when the cursor is not at the root). -/
def scountA : List SOp → List Nat → Nat
  | [], _ => 0
  | .descend f :: ops, s => scountA ops (sDescendWith f s).2
  | .ascend :: ops, s =>
    (if (sAscend s).1.isSome then 1 else 0) + scountA ops (sAscend s).2

/-- Running check that, at every prefix of the call sequence, the number of
successful ascends so far never exceeds the number of successful descends
so far, starting from slack `k` (the main claims use `k = 0`). -/
def prefixOk : List SOp → List Nat → Int → Bool
  | [], _, _ => true
  | .descend f :: ops, s, k =>
    let k' := k + (if (sDescendWith f s).1.isSome then 1 else 0)
    decide (0 ≤ k') && prefixOk ops (sDescendWith f s).2 k'
  | .ascend :: ops, s, k =>
    let k' := k - (if (sAscend s).1.isSome then 1 else 0)
    decide (0 ≤ k') && prefixOk ops (sAscend s).2 k'

/-! ### RefCell backend: `RefCellRefMutStack` (src/refcell.rs) -/

/-- The non-`AscendAtRoot` failure of the RefCell backend
(`std::cell::BorrowMutError`). -/
inductive RcErr where
  | borrowMutError
deriving DecidableEq

/-- `MoveError` for the RefCell backend. -/
inductive RcMoveError where
  | ascendAtRoot
  | borrowMutError
deriving DecidableEq

/-- State of a `RefCellRefMutStack` cursor together with the borrow flags of
the world it walks: `borrows` lists the cell ids with a live `RefMut`. -/
structure RcState where
  borrows : List Nat
  stack : List Nat
deriving DecidableEq, Repr

/-- Current top node (`data.last()`). -/
def RcState.top (s : RcState) : Nat := s.stack.getLastD 0

/-- `RefCell::try_borrow_mut` on cell `id`: fails iff the cell already has a
live borrow; on success records the new borrow. -/
def rcTryBorrowMut (id : Nat) (bs : List Nat) : Option (List Nat) :=
  if id ∈ bs then none else some (id :: bs)

/-- `RefCellRefMutStack::new`: try to mut-borrow the root cell. -/
def rcNew (root : Nat) (bs : List Nat) : Except RcErr RcState :=
  match rcTryBorrowMut root bs with
  | none => .error .borrowMutError
  | some bs' => .ok { borrows := bs', stack := [root] }

/-- `RefCellRefMutStack::descend_with`: navigate from the top; on a target,
try to mut-borrow it and push on success. -/
def rcDescendWith (f : Nat → Option Nat) (s : RcState) :
    Option (Except RcErr Nat) × RcState :=
  match f s.top with
  | none => (none, s)
  | some nid =>
    match rcTryBorrowMut nid s.borrows with
    | none => (some (.error .borrowMutError), s)
    | some bs => (some (.ok nid), { borrows := bs, stack := s.stack ++ [nid] })

/-- `RefCellRefMutStack::inject_top`. -/
def rcInjectTop (nid : Nat) (s : RcState) : Except RcErr Nat × RcState :=
  match rcTryBorrowMut nid s.borrows with
  | none => (.error .borrowMutError, s)
  | some bs => (.ok nid, { borrows := bs, stack := s.stack ++ [nid] })

/-- `RefCellRefMutStack::inject_with` (same mechanics as `descend_with`; the
two differ only in the lifetime of the returned reference). -/
def rcInjectWith (f : Nat → Option Nat) (s : RcState) :
    Option (Except RcErr Nat) × RcState :=
  match f s.top with
  | none => (none, s)
  | some nid =>
    match rcTryBorrowMut nid s.borrows with
    | none => (some (.error .borrowMutError), s)
    | some bs => (some (.ok nid), { borrows := bs, stack := s.stack ++ [nid] })

/-- `RefCellRefMutStack::ascend`: pop the top `RefMut` (its drop releases
the borrow) unless at the root. -/
def rcAscend (s : RcState) : Option Nat × RcState :=
  if 1 < s.stack.length then
    (some (s.stack.dropLast.getLastD 0),
      { borrows := s.borrows.erase (s.stack.getLastD 0),
        stack := s.stack.dropLast })
  else (none, s)

/-- `MoveDecision` for the RefCell backend. -/
inductive RcMove where
  | ascend
  | stay
  | descend (id : Nat)
  | inject (id : Nat)

/-- `RefCellRefMutStack::move_with`. -/
def rcMoveWith (d : Nat → RcMove) (s : RcState) :
    Except RcMoveError Nat × RcState :=
  match d s.top with
  | .ascend =>
    match rcAscend s with
    | (none, s') => (.error .ascendAtRoot, s')
    | (some t, s') => (.ok t, s')
  | .stay => (.ok s.top, s)
  | .descend nid =>
    match rcTryBorrowMut nid s.borrows with
    | none => (.error .borrowMutError, s)
    | some bs => (.ok nid, { borrows := bs, stack := s.stack ++ [nid] })
  | .inject nid =>
    match rcTryBorrowMut nid s.borrows with
    | none => (.error .borrowMutError, s)
    | some bs => (.ok nid, { borrows := bs, stack := s.stack ++ [nid] })

/-- The pop loop shared by `to_root` and `Drop` on the guard backends:
`n` iterations, each popping the last frame and dropping its guard (`rel`
is the guard's release action on the world `w`).  Returns the remaining
stack, the final world, and the trace of released ids in release order. -/
def popReleaseLoop {σ : Type} (rel : Nat → σ → σ) :
    Nat → List Nat → σ → List Nat × σ × List Nat
  | 0, st, w => (st, w, [])
  | n + 1, st, w =>
    match st.getLast? with
    | none => (st, w, [])
    | some id =>
      let r := popReleaseLoop rel n st.dropLast (rel id w)
      (r.1, r.2.1, id :: r.2.2)

/-- `RefCellRefMutStack::to_root`: `for _ in 1..len { pop }` — releases the
`len - 1` frames above the root, newest first; returns the new state and
the release trace. -/
def rcToRoot (s : RcState) : RcState × List Nat :=
  let r := popReleaseLoop (fun id bs => bs.erase id)
    (s.stack.length - 1) s.stack s.borrows
  ({ borrows := r.2.1, stack := r.1 }, r.2.2)

/-- `Drop for RefCellRefMutStack`: `for _ in 0..len { pop }` — releases every
frame, newest first. -/
def rcDropAll (s : RcState) : RcState × List Nat :=
  let r := popReleaseLoop (fun id bs => bs.erase id)
    s.stack.length s.stack s.borrows
  ({ borrows := r.2.1, stack := r.1 }, r.2.2)

/-! ### Mutex backend: `MutexGuardStack` (src/mutex.rs) -/

/-- World state seen by the Mutex backend: which cells are currently locked
and which are poisoned. -/
structure MWorld where
  locked : List Nat
  poisoned : List Nat
deriving DecidableEq, Repr

/-- Result of `Mutex::try_lock` on one cell: an acquired guard (`ok`), an
acquired guard inside a `PoisonError` (`poisonedG` — the lock IS held in
this case), or `wouldBlock` (nothing acquired). -/
inductive MTryRes where
  | ok (id : Nat)
  | poisonedG (id : Nat)
  | wouldBlock
deriving DecidableEq

/-- `Mutex::try_lock` on cell `id`: `WouldBlock` if the cell is locked;
otherwise the lock is taken, and the result is `Poisoned(guard)` when the
cell's poison flag is set, else `Ok(guard)`. -/
def mTryLock (id : Nat) (w : MWorld) : MTryRes × MWorld :=
  if id ∈ w.locked then (.wouldBlock, w)
  else if id ∈ w.poisoned then
    (.poisonedG id, { w with locked := id :: w.locked })
  else (.ok id, { w with locked := id :: w.locked })

/-- Dropping a `MutexGuard` outside a panic: release the lock (the poison
flag is untouched). -/
def mDropGuard (id : Nat) (w : MWorld) : MWorld :=
  { w with locked := w.locked.erase id }

/-- `TryLockError<()>`, the failure type of the Mutex backend's
descend/inject operations. -/
inductive MTLErr where
  | poisoned
  | wouldBlock
deriving DecidableEq

/-- `MoveError` for the Mutex backend. -/
inductive MMoveError where
  | ascendAtRoot
  | poisoned
  | wouldBlock
deriving DecidableEq

/-- State of a `MutexGuardStack` cursor: the world plus the frame stack. -/
structure MGS where
  world : MWorld
  stack : List Nat
deriving DecidableEq, Repr

/-- Current top node (`data.last()`). -/
def MGS.top (s : MGS) : Nat := s.stack.getLastD 0

/-- `MutexGuardStack::handle_trylock_result`: push on `Ok`; on
`Poisoned(guard)` push `guard.into_inner()` when `ignore_poison`, otherwise
drop the guard and fail; propagate `WouldBlock`. -/
def mHandleTrylockResult (res : MTryRes) (ignorePoison : Bool) (s : MGS) :
    Except MTLErr Nat × MGS :=
  match res, ignorePoison with
  | .ok id, _ => (.ok id, { s with stack := s.stack ++ [id] })
  | .poisonedG id, true => (.ok id, { s with stack := s.stack ++ [id] })
  | .poisonedG id, false =>
    (.error .poisoned, { s with world := mDropGuard id s.world })
  | .wouldBlock, _ => (.error .wouldBlock, s)

/-- `MutexGuardStack::handle_move_trylock_result` (same, with `MoveError`). -/
def mHandleMoveTrylockResult (res : MTryRes) (ignorePoison : Bool) (s : MGS) :
    Except MMoveError Nat × MGS :=
  match res, ignorePoison with
  | .ok id, _ => (.ok id, { s with stack := s.stack ++ [id] })
  | .poisonedG id, true => (.ok id, { s with stack := s.stack ++ [id] })
  | .poisonedG id, false =>
    (.error .poisoned, { s with world := mDropGuard id s.world })
  | .wouldBlock, _ => (.error .wouldBlock, s)

/-- Result of `MutexGuardStack::new` (`TryLockResult<Self>`): on a poisoned
but free root the error carries a fully constructed cursor
(`Err(Poisoned(PoisonError::new(Self { data: vec![guard.into_inner()] })))`). -/
inductive MNewResult where
  | ok (s : MGS)
  | errPoisoned (s : MGS)
  | errWouldBlock (w : MWorld)
deriving DecidableEq

/-- `MutexGuardStack::new`: try-lock the root cell. -/
def mNew (root : Nat) (w : MWorld) : MNewResult :=
  match mTryLock root w with
  | (.ok id, w') => .ok { world := w', stack := [id] }
  | (.poisonedG id, w') => .errPoisoned { world := w', stack := [id] }
  | (.wouldBlock, w') => .errWouldBlock w'

/-- `MutexGuardStack::inject_top`. -/
def mInjectTop (nid : Nat) (ignorePoison : Bool) (s : MGS) :
    Except MTLErr Nat × MGS :=
  let r := mTryLock nid s.world
  mHandleTrylockResult r.1 ignorePoison { s with world := r.2 }

/-- `MutexGuardStack::inject_with`. -/
def mInjectWith (f : Nat → Option Nat) (ignorePoison : Bool) (s : MGS) :
    Option (Except MTLErr Nat) × MGS :=
  match f s.top with
  | none => (none, s)
  | some nid =>
    let r := mTryLock nid s.world
    let h := mHandleTrylockResult r.1 ignorePoison { s with world := r.2 }
    (some h.1, h.2)

/-- `MutexGuardStack::descend_with` (same mechanics as `inject_with`; the
two differ only in the lifetime of the returned reference). -/
def mDescendWith (f : Nat → Option Nat) (ignorePoison : Bool) (s : MGS) :
    Option (Except MTLErr Nat) × MGS :=
  match f s.top with
  | none => (none, s)
  | some nid =>
    let r := mTryLock nid s.world
    let h := mHandleTrylockResult r.1 ignorePoison { s with world := r.2 }
    (some h.1, h.2)

/-- `MutexGuardStack::ascend`: pop the top guard (its drop unlocks the cell)
unless at the root. -/
def mAscend (s : MGS) : Option Nat × MGS :=
  if 1 < s.stack.length then
    (some (s.stack.dropLast.getLastD 0),
      { world := mDropGuard (s.stack.getLastD 0) s.world,
        stack := s.stack.dropLast })
  else (none, s)

/-- `MoveDecision` for the Mutex backend. -/
inductive MMove where
  | ascend
  | stay
  | descend (id : Nat)
  | inject (id : Nat)

/-- `MutexGuardStack::move_with`. -/
def mMoveWith (d : Nat → MMove) (ignorePoison : Bool) (s : MGS) :
    Except MMoveError Nat × MGS :=
  match d s.top with
  | .ascend =>
    match mAscend s with
    | (none, s') => (.error .ascendAtRoot, s')
    | (some t, s') => (.ok t, s')
  | .stay => (.ok s.top, s)
  | .descend nid =>
    let r := mTryLock nid s.world
    mHandleMoveTrylockResult r.1 ignorePoison { s with world := r.2 }
  | .inject nid =>
    let r := mTryLock nid s.world
    mHandleMoveTrylockResult r.1 ignorePoison { s with world := r.2 }

/-- `MutexGuardStack::to_root`: `for _ in 1..len { pop }` — unlocks the
`len - 1` frames above the root, newest first. -/
def mToRoot (s : MGS) : MGS × List Nat :=
  let r := popReleaseLoop mDropGuard (s.stack.length - 1) s.stack s.world
  ({ world := r.2.1, stack := r.1 }, r.2.2)

/-- `Drop for MutexGuardStack`: `for _ in 0..len { pop }` — unlocks every
frame, newest first. -/
def mDropAll (s : MGS) : MGS × List Nat :=
  let r := popReleaseLoop mDropGuard s.stack.length s.stack s.world
  ({ world := r.2.1, stack := r.1 }, r.2.2)

/-! ### Data-augmented backend: `MutRefStackWithData` (src/with_data.rs) -/

/-- `MutRefStackWithData::new`: one root frame with its auxiliary value. -/
def wNew {α : Type} (root : Nat) (a : α) : List (Nat × α) := [(root, a)]

/-- `MutRefStackWithData::descend_with`: the closure sees the top node and
its auxiliary value and supplies the child plus the child's auxiliary. -/
def wDescendWith {α : Type} (f : Nat → α → Option (Nat × α))
    (s : List (Nat × α)) : Option (Nat × α) × List (Nat × α) :=
  match s.getLast? with
  | none => (none, s)
  | some (n, a) =>
    match f n a with
    | none => (none, s)
    | some p => (some p, s ++ [p])

/-- `MutRefStackWithData::ascend`: pop one frame and hand its auxiliary
value back, unless at the root. -/
def wAscend {α : Type} (s : List (Nat × α)) : Option α × List (Nat × α) :=
  if 1 < s.length then
    (s.getLast?.map Prod.snd, s.dropLast)
  else (none, s)

/-- `MutRefStackWithData::ascend_while`'s loop, bounded by `fuel` (the loop
pops one frame per iteration, so `fuel = initial length` always suffices).
Each popped auxiliary value is `push_front`ed onto the collected sequence,
exactly as the source pushes onto the front of its `VecDeque`; prepending
the first pop last is rendered as appending it after the recursive result. -/
def wAscendWhileFuel {α : Type} (p : Nat → α → Bool) :
    Nat → List (Nat × α) → List (Nat × α) × List α
  | 0, s => (s, [])
  | fuel + 1, s =>
    if 1 < s.length then
      match s.getLast? with
      | none => (s, [])
      | some (n, a) =>
        if p n a then
          let r := wAscendWhileFuel p fuel s.dropLast
          (r.1, r.2 ++ [a])
        else (s, [])
    else (s, [])

/-- `MutRefStackWithData::ascend_while`: ascend while the predicate holds,
returning the final stack and the collected popped auxiliary values (in the
order the source's `VecDeque` exposes them). -/
def wAscendWhile {α : Type} (p : Nat → α → Bool) (s : List (Nat × α)) :
    List (Nat × α) × List α :=
  wAscendWhileFuel p s.length s

/-- `MoveDecision` for the data-augmented backend (descend/inject carry the
new frame's auxiliary value). -/
inductive WMove (α : Type) where
  | ascend
  | stay
  | descend (p : Nat × α)
  | inject (p : Nat × α)

/-- `MoveError` for the data-augmented backend. -/
inductive WMoveError where
  | ascendAtRoot
deriving DecidableEq

/-- `MutRefStackWithData::move_with`: on `Ascend` the popped frame's
auxiliary value is returned (`some`), on the other outcomes `none`. -/
def wMoveWith {α : Type} (d : Nat → α → WMove α) (s : List (Nat × α)) :
    Except WMoveError (Option α) × List (Nat × α) :=
  match s.getLast? with
  | none => (.error .ascendAtRoot, s)
  | some (n, a) =>
    match d n a with
    | .ascend =>
      match wAscend s with
      | (none, s') => (.error .ascendAtRoot, s')
      | (some pa, s') => (.ok (some pa), s')
    | .stay => (.ok none, s)
    | .descend p => (.ok none, s ++ [p])
    | .inject p => (.ok none, s ++ [p])

/-! ### The three-node cycle used by the cycle-detection scenarios -/

/-- Navigation for the cycle A→B→C→A with A = 0, B = 1, C = 2
(the structure of examples/cyclic.rs and examples/cyclic_sync.rs). -/
def cycleNext (n : Nat) : Option Nat :=
  if n = 0 then some 1 else if n = 1 then some 2
  else if n = 2 then some 0 else none

/-! ### Helper lemmas -/

theorem sDescendWith_none {f : Nat → Option Nat} {s : List Nat}
    (hf : f (stop s) = none) : sDescendWith f s = (none, s) := by
  simp [sDescendWith, hf]

theorem sDescendWith_some {f : Nat → Option Nat} {s : List Nat} {v : Nat}
    (hf : f (stop s) = some v) : sDescendWith f s = (some v, s ++ [v]) := by
  simp [sDescendWith, hf]

theorem sAscend_big {s : List Nat} (h : 1 < s.length) :
    sAscend s = (some (stop s.dropLast), s.dropLast) := by
  simp [sAscend, h]

theorem sAscend_small {s : List Nat} (h : ¬ 1 < s.length) :
    sAscend s = (none, s) := by
  simp [sAscend, h]

/-- Claim C4: on the RefCell backend, with the three-node cycle
A→B→C→A (A = 0, B = 1, C = 2) and a cursor rooted at A, the first
descend (into B) and the second (into C) succeed, and the third descend
(from C back to A) fails with `BorrowMutError` and changes nothing; so
exactly 2 successful descends precede the first failure. -/
theorem claim_C4 :
    rcNew 0 [] = .ok { borrows := [0], stack := [0] } ∧
    rcDescendWith cycleNext { borrows := [0], stack := [0] } =
      (some (.ok 1), { borrows := [1, 0], stack := [0, 1] }) ∧
    rcDescendWith cycleNext { borrows := [1, 0], stack := [0, 1] } =
      (some (.ok 2), { borrows := [2, 1, 0], stack := [0, 1, 2] }) ∧
    rcDescendWith cycleNext { borrows := [2, 1, 0], stack := [0, 1, 2] } =
      (some (.error .borrowMutError),
        { borrows := [2, 1, 0], stack := [0, 1, 2] }) :=
  ⟨rfl, rfl, rfl, rfl⟩

/-- Claim C5: on the Mutex backend, the same cycle and call sequence gives
two successful descends and then a `WouldBlock` failure on the third attempt
(which is in particular not `Poisoned`, and the descend failure type has no
ascend-at-root case at all), changing nothing. -/
theorem claim_C5 :
    mNew 0 { locked := [], poisoned := [] } =
      .ok { world := { locked := [0], poisoned := [] }, stack := [0] } ∧
    mDescendWith cycleNext false
        { world := { locked := [0], poisoned := [] }, stack := [0] } =
      (some (.ok 1),
        { world := { locked := [1, 0], poisoned := [] }, stack := [0, 1] }) ∧
    mDescendWith cycleNext false
        { world := { locked := [1, 0], poisoned := [] }, stack := [0, 1] } =
      (some (.ok 2),
        { world := { locked := [2, 1, 0], poisoned := [] },
          stack := [0, 1, 2] }) ∧
    mDescendWith cycleNext false
        { world := { locked := [2, 1, 0], poisoned := [] },
          stack := [0, 1, 2] } =
      (some (.error .wouldBlock),
        { world := { locked := [2, 1, 0], poisoned := [] },
          stack := [0, 1, 2] }) ∧
    MTLErr.wouldBlock ≠ MTLErr.poisoned :=
  ⟨rfl, rfl, rfl, rfl, by decide⟩

/-- Claim C6, counterexample: a data-augmented stack of depth 3 whose
frames above the root carry 10, 11, 12 (10 nearest the root); `ascend_while`
with an always-true predicate collects `[10, 11, 12]`, not the claimed
`[a2, a1, a0] = [12, 11, 10]`. -/
theorem claim_C6_counterexample :
    (wAscendWhile (fun _ _ => true)
        [(0, (9 : Nat)), (1, 10), (2, 11), (3, 12)]).2 = [10, 11, 12] ∧
    (wAscendWhile (fun _ _ => true)
        [(0, (9 : Nat)), (1, 10), (2, 11), (3, 12)]).2 ≠ [12, 11, 10] :=
  ⟨rfl, by decide⟩

/-- Claim C6 (amended): on the data-augmented cursor, a stack of depth 3
(built from `new` by three successful descends) carrying auxiliary values
a0, a1, a2 (a0 nearest the root, above the root frame's own value r), fed to
`ascend_while` with an always-true predicate, stops at the root and returns
the collected auxiliary values in exactly the order [a0, a1, a2] — i.e.
reverse-chronological pop order, from the frame nearest the final stopping
point (ascended last) to the frame nearest the original position (ascended
first). -/
theorem claim_C6_order {α : Type} (r a0 a1 a2 : α) (n0 n1 n2 n3 : Nat) :
    wDescendWith (fun _ _ => some (n1, a0)) (wNew n0 r) =
      (some (n1, a0), [(n0, r), (n1, a0)]) ∧
    wDescendWith (fun _ _ => some (n2, a1)) [(n0, r), (n1, a0)] =
      (some (n2, a1), [(n0, r), (n1, a0), (n2, a1)]) ∧
    wDescendWith (fun _ _ => some (n3, a2)) [(n0, r), (n1, a0), (n2, a1)] =
      (some (n3, a2), [(n0, r), (n1, a0), (n2, a1), (n3, a2)]) ∧
    wAscendWhile (fun _ _ => true)
        [(n0, r), (n1, a0), (n2, a1), (n3, a2)] =
      ([(n0, r)], [a0, a1, a2]) :=
  ⟨rfl, rfl, rfl, rfl⟩

/-- Claim C10: on the Mutex backend, `new` applied to a mutex that is
poisoned but not currently held returns the `Poisoned` error variant whose
payload is a fully constructed cursor: its single root frame holds the
acquired guard (the root is now locked) over the node's prior contents, so
a caller can extract and use the cursor despite the poisoning. -/
theorem claim_C10 (root : Nat) (w : MWorld)
    (hfree : root ∉ w.locked) (hpois : root ∈ w.poisoned) :
    mNew root w =
      .errPoisoned
        { world := { locked := root :: w.locked, poisoned := w.poisoned },
          stack := [root] } := by
  unfold mNew mTryLock
  rw [if_neg hfree, if_pos hpois]

/-- Concrete instance of `claim_C10`: root cell 5, unlocked and poisoned. -/
theorem claim_C10_witness :
    mNew 5 { locked := [], poisoned := [5] } =
      .errPoisoned
        { world := { locked := [5], poisoned := [5] }, stack := [5] } :=
  claim_C10 5 { locked := [], poisoned := [5] } (by decide) (by decide)

theorem sAscendWhileFuel_true :
    ∀ (fuel : Nat) (l : List Nat) (r : Nat), l.length ≤ fuel →
      sAscendWhileFuel (fun _ => true) fuel (r :: l) = ([r], l.length) := by
  intro fuel
  induction fuel with
  | zero =>
    intro l r h
    have hl : l = [] := List.eq_nil_of_length_eq_zero (Nat.le_zero.mp h)
    subst hl
    rfl
  | succ fuel ih =>
    intro l r h
    rcases List.eq_nil_or_concat l with rfl | ⟨e, x, hl⟩
    · rfl
    · rw [List.concat_eq_append] at hl
      subst hl
      have hcons : r :: (e ++ [x]) = (r :: e) ++ [x] := by simp
      have hlen : 1 < (r :: (e ++ [x])).length := by
        simp [Nat.lt_add_of_pos_left]
      have hdrop : (r :: (e ++ [x])).dropLast = r :: e := by
        rw [hcons, List.dropLast_concat]
      have hfe : e.length ≤ fuel := by
        simp only [List.length_append, List.length_singleton] at h
        omega
      simp only [sAscendWhileFuel, if_pos hlen, sAscend_big hlen, hdrop,
        if_pos rfl]
      rw [ih e r hfe]
      simp

/-- Claim C9: on the simple backend, from a stack of depth d (root plus d
frames, however they were pushed, in particular by d successful descends),
`ascend_while` with an always-true predicate performs exactly d ascends and
leaves the cursor at the root (one frame, whose top is the root node); a
subsequent plain `ascend` returns the at-root value and changes nothing. -/
theorem claim_C9 (d : Nat) (r : Nat) (l : List Nat) (hl : l.length = d) :
    sAscendWhile (fun _ => true) (r :: l) = ([r], d) ∧
    ([r] : List Nat).length = 1 ∧
    stop [r] = r ∧
    sAscend [r] = (none, [r]) := by
  subst hl
  refine ⟨?_, rfl, rfl, rfl⟩
  unfold sAscendWhile
  exact sAscendWhileFuel_true _ l r (by simp)

/-- Concrete instance of `claim_C9`: depth 2, root 5, frames 1 and 2. -/
theorem claim_C9_witness :
    sAscendWhile (fun _ => true) (5 :: [1, 2]) = ([5], 2) ∧
    ([5] : List Nat).length = 1 ∧
    stop [5] = 5 ∧
    sAscend [5] = (none, [5]) :=
  claim_C9 2 5 [1, 2] rfl

/-- Claim C3, counterexample: the sequence consisting of one successful
descend from the one-frame stack [0] satisfies the claim's hypothesis (the
number of successful ascends — zero — never exceeds the number of successful
descends at any prefix), yet the frame count after the sequence is 2, not
the pre-sequence value 1. -/
theorem claim_C3_counterexample :
    prefixOk [SOp.descend (fun _ => some 1)] [0] 0 = true ∧
    (srun [SOp.descend (fun _ => some 1)] [0]).length ≠
      ([0] : List Nat).length :=
  ⟨rfl, by decide⟩

theorem srun_balanced_aux :
    ∀ (ops : List SOp) (orig extra : List Nat), orig ≠ [] →
      prefixOk ops (orig ++ extra) (extra.length : Int) = true →
      scountA ops (orig ++ extra) = scountD ops (orig ++ extra) + extra.length →
      srun ops (orig ++ extra) = orig := by
  intro ops
  induction ops with
  | nil =>
    intro orig extra horig hpre heq
    simp only [scountA, scountD, Nat.zero_add] at heq
    have hex : extra = [] := List.eq_nil_of_length_eq_zero (by omega)
    subst hex
    simp [srun]
  | cons op ops ih =>
    intro orig extra horig hpre heq
    cases op with
    | descend f =>
      cases hf : f (stop (orig ++ extra)) with
      | none =>
        rw [srun, sDescendWith_none hf]
        simp only [prefixOk, sDescendWith_none hf] at hpre
        simp only [scountA, scountD, sDescendWith_none hf] at heq
        simp only [Option.isSome_none, Bool.false_eq_true, if_false,
          Int.add_zero, Bool.and_eq_true, decide_eq_true_eq] at hpre
        simp only [Option.isSome_none, Bool.false_eq_true, if_false,
          Nat.zero_add] at heq
        exact ih orig extra horig hpre.2 heq
      | some v =>
        rw [srun, sDescendWith_some hf]
        simp only [prefixOk, sDescendWith_some hf, Option.isSome_some,
          if_pos, Bool.and_eq_true, decide_eq_true_eq] at hpre
        simp only [scountA, scountD, sDescendWith_some hf,
          Option.isSome_some, if_pos] at heq
        have hassoc : (orig ++ extra) ++ [v] = orig ++ (extra ++ [v]) :=
          List.append_assoc orig extra [v]
        rw [hassoc] at hpre heq ⊢
        have hlen : ((extra ++ [v]).length : Int) = (extra.length : Int) + 1 := by
          simp
        have hpre' : prefixOk ops (orig ++ (extra ++ [v]))
            ((extra ++ [v]).length : Int) = true := by
          rw [hlen]
          exact hpre.2
        have heq' : scountA ops (orig ++ (extra ++ [v])) =
            scountD ops (orig ++ (extra ++ [v])) + (extra ++ [v]).length := by
          simp only [List.length_append, List.length_singleton]
          omega
        exact ih orig (extra ++ [v]) horig hpre' heq'
    | ascend =>
      rcases List.eq_nil_or_concat extra with rfl | ⟨e, x, hex⟩
      · simp only [List.append_nil] at hpre heq ⊢
        by_cases h1 : 1 < orig.length
        · exfalso
          simp only [prefixOk, sAscend_big h1, Option.isSome_some, if_pos,
            List.length_nil, Int.ofNat_zero, Bool.and_eq_true,
            decide_eq_true_eq] at hpre
          omega
        · rw [srun, sAscend_small h1]
          simp only [prefixOk, sAscend_small h1, Option.isSome_none,
            Bool.false_eq_true, if_neg, List.length_nil, Int.ofNat_zero,
            Int.sub_zero, Bool.and_eq_true, decide_eq_true_eq] at hpre
          simp only [scountA, scountD, sAscend_small h1, Option.isSome_none,
            Bool.false_eq_true, if_neg, Nat.zero_add] at heq
          have := ih orig [] horig (by simpa using hpre.2) (by simpa using heq)
          simpa using this
      · rw [List.concat_eq_append] at hex
        subst hex
        have hassoc : orig ++ (e ++ [x]) = (orig ++ e) ++ [x] :=
          (List.append_assoc orig e [x]).symm
        have h1 : 1 < (orig ++ (e ++ [x])).length := by
          rcases orig with _ | ⟨a, t⟩
          · exact absurd rfl horig
          · simp
        have hdrop : (orig ++ (e ++ [x])).dropLast = orig ++ e := by
          rw [hassoc, List.dropLast_concat]
        rw [srun, sAscend_big h1, hdrop]
        simp only [prefixOk, sAscend_big h1, Option.isSome_some, if_pos,
          hdrop, Bool.and_eq_true, decide_eq_true_eq] at hpre
        simp only [scountA, scountD, sAscend_big h1, Option.isSome_some,
          if_pos, hdrop] at heq
        have hpre' : prefixOk ops (orig ++ e) ((e.length : Int)) = true := by
          have := hpre.2
          have hcast : ((e ++ [x]).length : Int) - 1 = (e.length : Int) := by
            simp
          rwa [hcast] at this
        have heq' : scountA ops (orig ++ e) =
            scountD ops (orig ++ e) + e.length := by
          simp only [List.length_append, List.length_singleton] at heq
          omega
        exact ih orig e horig hpre' heq'

/-- Claim C3 (amended): for any sequence of descend/ascend calls on a
simple-backend cursor in which the number of successful ascends never
exceeds the number of successful descends at any prefix AND the two totals
are equal over the whole sequence, after the sequence completes the stack's
frame count and the identity of the top node are exactly their values from
before the sequence. -/
theorem claim_C3_balanced (s : List Nat) (ops : List SOp) (hs : s ≠ [])
    (hpre : prefixOk ops s 0 = true)
    (hbal : scountA ops s = scountD ops s) :
    (srun ops s).length = s.length ∧ stop (srun ops s) = stop s := by
  have h := srun_balanced_aux ops s [] hs
    (by simpa using hpre) (by simpa using hbal)
  rw [List.append_nil] at h
  rw [h]
  exact ⟨rfl, rfl⟩

/-- Concrete instance of `claim_C3_balanced`: one successful descend
followed by one successful ascend from the one-frame stack [0]. -/
theorem claim_C3_witness :
    (srun [SOp.descend (fun _ => some 1), SOp.ascend] [0]).length =
      ([0] : List Nat).length ∧
    stop (srun [SOp.descend (fun _ => some 1), SOp.ascend] [0]) =
      stop [0] :=
  claim_C3_balanced [0] [SOp.descend (fun _ => some 1), SOp.ascend]
    (by decide) rfl rfl

theorem popReleaseLoop_spec {σ : Type} (rel : Nat → σ → σ) :
    ∀ (n : Nat) (st : List Nat) (w : σ), n ≤ st.length →
      (popReleaseLoop rel n st w).1 = st.take (st.length - n) ∧
      (popReleaseLoop rel n st w).2.2 = (st.drop (st.length - n)).reverse := by
  intro n
  induction n with
  | zero =>
    intro st w _
    simp [popReleaseLoop]
  | succ n ih =>
    intro st w h
    rcases List.eq_nil_or_concat st with rfl | ⟨ys, x, hst⟩
    · simp at h
    · rw [List.concat_eq_append] at hst
      subst hst
      have hn : n ≤ ys.length := by
        simp only [List.length_append, List.length_singleton] at h
        omega
      have hkey := ih ys (rel x w) hn
      have hsub : (ys ++ [x]).length - (n + 1) = ys.length - n := by
        simp only [List.length_append, List.length_singleton]
        omega
      have hk : ys.length - n ≤ ys.length := Nat.sub_le _ _
      simp only [popReleaseLoop, List.getLast?_concat, List.dropLast_concat]
      constructor
      · rw [hkey.1, hsub, List.take_append_of_le_length hk]
      · rw [hkey.2, hsub, List.drop_append_of_le_length hk]
        simp

theorem toRoot_loop_spec {σ : Type} (rel : Nat → σ → σ) (st : List Nat)
    (w : σ) (hst : st ≠ []) :
    (popReleaseLoop rel (st.length - 1) st w).1 = st.take 1 ∧
    (popReleaseLoop rel (st.length - 1) st w).2.2 = (st.drop 1).reverse := by
  have hpos : 0 < st.length := List.length_pos.mpr hst
  have h1 : st.length - (st.length - 1) = 1 := by omega
  have h := popReleaseLoop_spec rel (st.length - 1) st w (Nat.sub_le _ _)
  rwa [h1] at h

theorem dropAll_loop_spec {σ : Type} (rel : Nat → σ → σ) (st : List Nat)
    (w : σ) :
    (popReleaseLoop rel st.length st w).1 = [] ∧
    (popReleaseLoop rel st.length st w).2.2 = st.reverse := by
  have h := popReleaseLoop_spec rel st.length st w (Nat.le_refl _)
  simpa using h

theorem take_one_getLastD (l : List Nat) (hl : l ≠ []) :
    (l.take 1).getLastD 0 = l.headD 0 := by
  cases l with
  | nil => exact absurd rfl hl
  | cons a t => simp

/-- Claim C1: on every backend, every exit path other than `into_top`
releases the held access tokens strictly in reverse acquisition order —
the release trace of both `to_root` and cursor destruction (`Drop`) is the
reverse of the frame stack (so the token of frame i is released only after
the tokens of all frames j > i) — and `to_root` leaves exactly the root
frame on the stack and returns the root node.  Stated for the RefCell and
Mutex guard backends (the only ones holding releasable tokens) and for the
simple backend's token-free `to_root`. -/
theorem claim_C1 (s : RcState) (m : MGS) (l : List Nat)
    (hs : s.stack ≠ []) (hm : m.stack ≠ []) (hl : l ≠ []) :
    (rcToRoot s).2 = (s.stack.drop 1).reverse ∧
    (rcToRoot s).1.stack = s.stack.take 1 ∧
    RcState.top (rcToRoot s).1 = s.stack.headD 0 ∧
    (rcDropAll s).2 = s.stack.reverse ∧
    (rcDropAll s).1.stack = [] ∧
    (mToRoot m).2 = (m.stack.drop 1).reverse ∧
    (mToRoot m).1.stack = m.stack.take 1 ∧
    MGS.top (mToRoot m).1 = m.stack.headD 0 ∧
    (mDropAll m).2 = m.stack.reverse ∧
    (mDropAll m).1.stack = [] ∧
    sToRoot l = l.take 1 ∧
    stop (sToRoot l) = l.headD 0 := by
  have hrc := toRoot_loop_spec (fun id bs => bs.erase id) s.stack s.borrows hs
  have hrcd := dropAll_loop_spec (fun id bs => bs.erase id) s.stack s.borrows
  have hmc := toRoot_loop_spec mDropGuard m.stack m.world hm
  have hmd := dropAll_loop_spec mDropGuard m.stack m.world
  refine ⟨hrc.2, hrc.1, ?_, hrcd.2, hrcd.1, hmc.2, hmc.1, ?_, hmd.2, hmd.1,
    rfl, ?_⟩
  · show ((rcToRoot s).1.stack).getLastD 0 = s.stack.headD 0
    simp only [rcToRoot]
    rw [hrc.1]
    exact take_one_getLastD s.stack hs
  · show ((mToRoot m).1.stack).getLastD 0 = m.stack.headD 0
    simp only [mToRoot]
    rw [hmc.1]
    exact take_one_getLastD m.stack hm
  · show (l.take 1).getLastD 0 = l.headD 0
    exact take_one_getLastD l hl

/-- Concrete instance of `claim_C1`: a three-frame RefCell cursor, a
two-frame Mutex cursor, and a two-frame simple cursor. -/
theorem claim_C1_witness :
    (rcToRoot { borrows := [2, 1, 0], stack := [0, 1, 2] }).2 =
      (([0, 1, 2] : List Nat).drop 1).reverse ∧
    (rcToRoot { borrows := [2, 1, 0], stack := [0, 1, 2] }).1.stack =
      ([0, 1, 2] : List Nat).take 1 ∧
    RcState.top (rcToRoot { borrows := [2, 1, 0], stack := [0, 1, 2] }).1 =
      ([0, 1, 2] : List Nat).headD 0 ∧
    (rcDropAll { borrows := [2, 1, 0], stack := [0, 1, 2] }).2 =
      ([0, 1, 2] : List Nat).reverse ∧
    (rcDropAll { borrows := [2, 1, 0], stack := [0, 1, 2] }).1.stack = [] ∧
    (mToRoot { world := { locked := [8, 7], poisoned := [] }, stack := [7, 8] }).2 =
      (([7, 8] : List Nat).drop 1).reverse ∧
    (mToRoot { world := { locked := [8, 7], poisoned := [] }, stack := [7, 8] }).1.stack =
      ([7, 8] : List Nat).take 1 ∧
    MGS.top (mToRoot { world := { locked := [8, 7], poisoned := [] }, stack := [7, 8] }).1 =
      ([7, 8] : List Nat).headD 0 ∧
    (mDropAll { world := { locked := [8, 7], poisoned := [] }, stack := [7, 8] }).2 =
      ([7, 8] : List Nat).reverse ∧
    (mDropAll { world := { locked := [8, 7], poisoned := [] }, stack := [7, 8] }).1.stack = [] ∧
    sToRoot [3, 4] = ([3, 4] : List Nat).take 1 ∧
    stop (sToRoot [3, 4]) = ([3, 4] : List Nat).headD 0 :=
  claim_C1 { borrows := [2, 1, 0], stack := [0, 1, 2] }
    { world := { locked := [8, 7], poisoned := [] }, stack := [7, 8] }
    [3, 4] (by decide) (by decide) (by decide)

/-- Claim C2: every `descend_with`, `inject_top`, `inject_with` or
`move_with` call on a checked backend whose acquisition fails — target
already mut-borrowed on the RefCell backend; target locked (would-block), or
poisoned without `ignore_poison`, on the Mutex backend — returns the failure
as an explicit value and leaves the cursor state completely unchanged: same
frame count, same frames, no partial push (and the world's borrow/lock state
is also unchanged). -/
theorem claim_C2 (s : RcState) (m : MGS) (ig : Bool)
    (f : Nat → Option Nat) (nid : Nat)
    (hf : f s.top = some nid) (hb : nid ∈ s.borrows)
    (dr dri : Nat → RcMove)
    (hdr : dr s.top = .descend nid) (hdri : dri s.top = .inject nid)
    (fm : Nat → Option Nat) (mid : Nat)
    (hfm : fm m.top = some mid) (hml : mid ∈ m.world.locked)
    (dmd dmi : Nat → MMove)
    (hdmd : dmd m.top = .descend mid) (hdmi : dmi m.top = .inject mid)
    (fp : Nat → Option Nat) (pid : Nat)
    (hfp : fp m.top = some pid) (hpl : pid ∉ m.world.locked)
    (hpp : pid ∈ m.world.poisoned)
    (dpd dpi : Nat → MMove)
    (hdpd : dpd m.top = .descend pid) (hdpi : dpi m.top = .inject pid) :
    rcDescendWith f s = (some (.error .borrowMutError), s) ∧
    rcInjectTop nid s = (.error .borrowMutError, s) ∧
    rcInjectWith f s = (some (.error .borrowMutError), s) ∧
    rcMoveWith dr s = (.error .borrowMutError, s) ∧
    rcMoveWith dri s = (.error .borrowMutError, s) ∧
    mDescendWith fm ig m = (some (.error .wouldBlock), m) ∧
    mInjectTop mid ig m = (.error .wouldBlock, m) ∧
    mInjectWith fm ig m = (some (.error .wouldBlock), m) ∧
    mMoveWith dmd ig m = (.error .wouldBlock, m) ∧
    mMoveWith dmi ig m = (.error .wouldBlock, m) ∧
    mDescendWith fp false m = (some (.error .poisoned), m) ∧
    mInjectTop pid false m = (.error .poisoned, m) ∧
    mInjectWith fp false m = (some (.error .poisoned), m) ∧
    mMoveWith dpd false m = (.error .poisoned, m) ∧
    mMoveWith dpi false m = (.error .poisoned, m) := by
  refine ⟨?_, ?_, ?_, ?_, ?_, ?_, ?_, ?_, ?_, ?_, ?_, ?_, ?_, ?_, ?_⟩
  · simp [rcDescendWith, hf, rcTryBorrowMut, hb]
  · simp [rcInjectTop, rcTryBorrowMut, hb]
  · simp [rcInjectWith, hf, rcTryBorrowMut, hb]
  · simp [rcMoveWith, hdr, rcTryBorrowMut, hb]
  · simp [rcMoveWith, hdri, rcTryBorrowMut, hb]
  · simp [mDescendWith, hfm, mTryLock, hml, mHandleTrylockResult]
  · simp [mInjectTop, mTryLock, hml, mHandleTrylockResult]
  · simp [mInjectWith, hfm, mTryLock, hml, mHandleTrylockResult]
  · simp [mMoveWith, hdmd, mTryLock, hml, mHandleMoveTrylockResult]
  · simp [mMoveWith, hdmi, mTryLock, hml, mHandleMoveTrylockResult]
  · simp [mDescendWith, hfp, mTryLock, hpl, hpp, mHandleTrylockResult,
      mDropGuard, List.erase_cons_head]
  · simp [mInjectTop, mTryLock, hpl, hpp, mHandleTrylockResult,
      mDropGuard, List.erase_cons_head]
  · simp [mInjectWith, hfp, mTryLock, hpl, hpp, mHandleTrylockResult,
      mDropGuard, List.erase_cons_head]
  · simp [mMoveWith, hdpd, mTryLock, hpl, hpp, mHandleMoveTrylockResult,
      mDropGuard, List.erase_cons_head]
  · simp [mMoveWith, hdpi, mTryLock, hpl, hpp, mHandleMoveTrylockResult,
      mDropGuard, List.erase_cons_head]

/-- Concrete instance of `claim_C2`: RefCell cursor at node 0 whose
self-loop target 0 is already borrowed; Mutex cursor at node 2 with
target 9 locked (would-block) and target 5 free but poisoned. -/
theorem claim_C2_witness :
    rcDescendWith (fun _ => some 0) { borrows := [0], stack := [0] } =
      (some (.error .borrowMutError), { borrows := [0], stack := [0] }) ∧
    rcInjectTop 0 { borrows := [0], stack := [0] } =
      (.error .borrowMutError, { borrows := [0], stack := [0] }) ∧
    rcInjectWith (fun _ => some 0) { borrows := [0], stack := [0] } =
      (some (.error .borrowMutError), { borrows := [0], stack := [0] }) ∧
    rcMoveWith (fun _ => .descend 0) { borrows := [0], stack := [0] } =
      (.error .borrowMutError, { borrows := [0], stack := [0] }) ∧
    rcMoveWith (fun _ => .inject 0) { borrows := [0], stack := [0] } =
      (.error .borrowMutError, { borrows := [0], stack := [0] }) ∧
    mDescendWith (fun _ => some 9) true
        { world := { locked := [9, 2], poisoned := [5] }, stack := [2] } =
      (some (.error .wouldBlock),
        { world := { locked := [9, 2], poisoned := [5] }, stack := [2] }) ∧
    mInjectTop 9 true
        { world := { locked := [9, 2], poisoned := [5] }, stack := [2] } =
      (.error .wouldBlock,
        { world := { locked := [9, 2], poisoned := [5] }, stack := [2] }) ∧
    mInjectWith (fun _ => some 9) true
        { world := { locked := [9, 2], poisoned := [5] }, stack := [2] } =
      (some (.error .wouldBlock),
        { world := { locked := [9, 2], poisoned := [5] }, stack := [2] }) ∧
    mMoveWith (fun _ => .descend 9) true
        { world := { locked := [9, 2], poisoned := [5] }, stack := [2] } =
      (.error .wouldBlock,
        { world := { locked := [9, 2], poisoned := [5] }, stack := [2] }) ∧
    mMoveWith (fun _ => .inject 9) true
        { world := { locked := [9, 2], poisoned := [5] }, stack := [2] } =
      (.error .wouldBlock,
        { world := { locked := [9, 2], poisoned := [5] }, stack := [2] }) ∧
    mDescendWith (fun _ => some 5) false
        { world := { locked := [9, 2], poisoned := [5] }, stack := [2] } =
      (some (.error .poisoned),
        { world := { locked := [9, 2], poisoned := [5] }, stack := [2] }) ∧
    mInjectTop 5 false
        { world := { locked := [9, 2], poisoned := [5] }, stack := [2] } =
      (.error .poisoned,
        { world := { locked := [9, 2], poisoned := [5] }, stack := [2] }) ∧
    mInjectWith (fun _ => some 5) false
        { world := { locked := [9, 2], poisoned := [5] }, stack := [2] } =
      (some (.error .poisoned),
        { world := { locked := [9, 2], poisoned := [5] }, stack := [2] }) ∧
    mMoveWith (fun _ => .descend 5) false
        { world := { locked := [9, 2], poisoned := [5] }, stack := [2] } =
      (.error .poisoned,
        { world := { locked := [9, 2], poisoned := [5] }, stack := [2] }) ∧
    mMoveWith (fun _ => .inject 5) false
        { world := { locked := [9, 2], poisoned := [5] }, stack := [2] } =
      (.error .poisoned,
        { world := { locked := [9, 2], poisoned := [5] }, stack := [2] }) :=
  claim_C2 { borrows := [0], stack := [0] }
    { world := { locked := [9, 2], poisoned := [5] }, stack := [2] }
    true (fun _ => some 0) 0 rfl (by decide)
    (fun _ => .descend 0) (fun _ => .inject 0) rfl rfl
    (fun _ => some 9) 9 rfl (by decide)
    (fun _ => .descend 9) (fun _ => .inject 9) rfl rfl
    (fun _ => some 5) 5 rfl (by decide) (by decide)
    (fun _ => .descend 5) (fun _ => .inject 5) rfl rfl

/-- Claim C7: on the Mutex backend, when an acquisition attempt
(`inject_top`, `inject_with`, `descend_with`, `move_with`) hits a poisoned
(but free) node: with `ignore_poison = false` the operation fails with the
distinct `Poisoned` failure (state unchanged); with `ignore_poison = true`
the acquisition succeeds, pushing a frame holding the node's prior contents
as-is — and the node's poison flag is NOT reset by the recovery, so the
opt-in is strictly per call. -/
theorem claim_C7 (m : MGS) (pid : Nat)
    (hpl : pid ∉ m.world.locked) (hpp : pid ∈ m.world.poisoned)
    (f : Nat → Option Nat) (hf : f m.top = some pid)
    (dd di : Nat → MMove)
    (hdd : dd m.top = .descend pid) (hdi : di m.top = .inject pid) :
    mInjectTop pid false m = (.error .poisoned, m) ∧
    mInjectWith f false m = (some (.error .poisoned), m) ∧
    mDescendWith f false m = (some (.error .poisoned), m) ∧
    mMoveWith dd false m = (.error .poisoned, m) ∧
    mMoveWith di false m = (.error .poisoned, m) ∧
    mInjectTop pid true m =
      (.ok pid,
        { world := { locked := pid :: m.world.locked, poisoned := m.world.poisoned },
          stack := m.stack ++ [pid] }) ∧
    mInjectWith f true m =
      (some (.ok pid),
        { world := { locked := pid :: m.world.locked, poisoned := m.world.poisoned },
          stack := m.stack ++ [pid] }) ∧
    mDescendWith f true m =
      (some (.ok pid),
        { world := { locked := pid :: m.world.locked, poisoned := m.world.poisoned },
          stack := m.stack ++ [pid] }) ∧
    mMoveWith dd true m =
      (.ok pid,
        { world := { locked := pid :: m.world.locked, poisoned := m.world.poisoned },
          stack := m.stack ++ [pid] }) ∧
    mMoveWith di true m =
      (.ok pid,
        { world := { locked := pid :: m.world.locked, poisoned := m.world.poisoned },
          stack := m.stack ++ [pid] }) ∧
    pid ∈ (mInjectTop pid true m).2.world.poisoned := by
  refine ⟨?_, ?_, ?_, ?_, ?_, ?_, ?_, ?_, ?_, ?_, ?_⟩
  · simp [mInjectTop, mTryLock, hpl, hpp, mHandleTrylockResult,
      mDropGuard, List.erase_cons_head]
  · simp [mInjectWith, hf, mTryLock, hpl, hpp, mHandleTrylockResult,
      mDropGuard, List.erase_cons_head]
  · simp [mDescendWith, hf, mTryLock, hpl, hpp, mHandleTrylockResult,
      mDropGuard, List.erase_cons_head]
  · simp [mMoveWith, hdd, mTryLock, hpl, hpp, mHandleMoveTrylockResult,
      mDropGuard, List.erase_cons_head]
  · simp [mMoveWith, hdi, mTryLock, hpl, hpp, mHandleMoveTrylockResult,
      mDropGuard, List.erase_cons_head]
  · simp [mInjectTop, mTryLock, hpl, hpp, mHandleTrylockResult]
  · simp [mInjectWith, hf, mTryLock, hpl, hpp, mHandleTrylockResult]
  · simp [mDescendWith, hf, mTryLock, hpl, hpp, mHandleTrylockResult]
  · simp [mMoveWith, hdd, mTryLock, hpl, hpp, mHandleMoveTrylockResult]
  · simp [mMoveWith, hdi, mTryLock, hpl, hpp, mHandleMoveTrylockResult]
  · simp [mInjectTop, mTryLock, hpl, hpp, mHandleTrylockResult]

/-- Concrete instance of `claim_C7`: cursor at node 2, target node 5 free
but poisoned. -/
theorem claim_C7_witness :
    mInjectTop 5 false { world := { locked := [2], poisoned := [5] }, stack := [2] } =
      (.error .poisoned,
        { world := { locked := [2], poisoned := [5] }, stack := [2] }) ∧
    mInjectWith (fun _ => some 5) false
        { world := { locked := [2], poisoned := [5] }, stack := [2] } =
      (some (.error .poisoned),
        { world := { locked := [2], poisoned := [5] }, stack := [2] }) ∧
    mDescendWith (fun _ => some 5) false
        { world := { locked := [2], poisoned := [5] }, stack := [2] } =
      (some (.error .poisoned),
        { world := { locked := [2], poisoned := [5] }, stack := [2] }) ∧
    mMoveWith (fun _ => .descend 5) false
        { world := { locked := [2], poisoned := [5] }, stack := [2] } =
      (.error .poisoned,
        { world := { locked := [2], poisoned := [5] }, stack := [2] }) ∧
    mMoveWith (fun _ => .inject 5) false
        { world := { locked := [2], poisoned := [5] }, stack := [2] } =
      (.error .poisoned,
        { world := { locked := [2], poisoned := [5] }, stack := [2] }) ∧
    mInjectTop 5 true { world := { locked := [2], poisoned := [5] }, stack := [2] } =
      (.ok 5,
        { world := { locked := 5 :: [2], poisoned := [5] }, stack := [2] ++ [5] }) ∧
    mInjectWith (fun _ => some 5) true
        { world := { locked := [2], poisoned := [5] }, stack := [2] } =
      (some (.ok 5),
        { world := { locked := 5 :: [2], poisoned := [5] }, stack := [2] ++ [5] }) ∧
    mDescendWith (fun _ => some 5) true
        { world := { locked := [2], poisoned := [5] }, stack := [2] } =
      (some (.ok 5),
        { world := { locked := 5 :: [2], poisoned := [5] }, stack := [2] ++ [5] }) ∧
    mMoveWith (fun _ => .descend 5) true
        { world := { locked := [2], poisoned := [5] }, stack := [2] } =
      (.ok 5,
        { world := { locked := 5 :: [2], poisoned := [5] }, stack := [2] ++ [5] }) ∧
    mMoveWith (fun _ => .inject 5) true
        { world := { locked := [2], poisoned := [5] }, stack := [2] } =
      (.ok 5,
        { world := { locked := 5 :: [2], poisoned := [5] }, stack := [2] ++ [5] }) ∧
    5 ∈ (mInjectTop 5 true
        { world := { locked := [2], poisoned := [5] }, stack := [2] }).2.world.poisoned :=
  claim_C7 { world := { locked := [2], poisoned := [5] }, stack := [2] } 5
    (by decide) (by decide) (fun _ => some 5) rfl
    (fun _ => .descend 5) (fun _ => .inject 5) rfl rfl

theorem sMoveWith_ascendAtRoot_iff (d : Nat → SMove) (l : List Nat)
    (hl : l ≠ []) :
    (sMoveWith d l).1 = .error .ascendAtRoot ↔
      d (stop l) = .ascend ∧ l.length = 1 := by
  have hpos : 0 < l.length := List.length_pos.mpr hl
  cases hd : d (stop l) <;> by_cases h1 : 1 < l.length <;>
    simp [sMoveWith, hd, sAscend, h1] <;> omega

theorem rcMoveWith_ascendAtRoot_iff (dr : Nat → RcMove) (s : RcState)
    (hs : s.stack ≠ []) :
    (rcMoveWith dr s).1 = .error .ascendAtRoot ↔
      dr s.top = .ascend ∧ s.stack.length = 1 := by
  have hpos : 0 < s.stack.length := List.length_pos.mpr hs
  cases hd : dr s.top <;> by_cases h1 : 1 < s.stack.length <;>
    simp [rcMoveWith, hd, rcAscend, h1, rcTryBorrowMut] <;>
    first
    | omega
    | (split_ifs <;> simp)

theorem mMoveWith_ascendAtRoot_iff (dm : Nat → MMove) (ig : Bool) (m : MGS)
    (hm : m.stack ≠ []) :
    (mMoveWith dm ig m).1 = .error .ascendAtRoot ↔
      dm m.top = .ascend ∧ m.stack.length = 1 := by
  have hpos : 0 < m.stack.length := List.length_pos.mpr hm
  cases ig <;> cases hd : dm m.top <;> by_cases h1 : 1 < m.stack.length <;>
    simp [mMoveWith, hd, mAscend, h1, mTryLock, mHandleMoveTrylockResult] <;>
    first
    | omega
    | (split_ifs <;> simp)

theorem wMoveWith_ascendAtRoot_iff {α : Type} (dw : Nat → α → WMove α)
    (t : List (Nat × α)) (n : Nat) (a : α) :
    (wMoveWith dw (t ++ [(n, a)])).1 = .error .ascendAtRoot ↔
      dw n a = .ascend ∧ (t ++ [(n, a)]).length = 1 := by
  have hg : (t ++ [(n, a)]).getLast? = some (n, a) := List.getLast?_concat _
  cases hd : dw n a <;> rcases eq_or_ne t [] with rfl | ht <;>
    [simp [wMoveWith, hg, hd, wAscend];
     simp [wMoveWith, hg, hd, wAscend, List.length_pos.mpr ht, ht];
     simp [wMoveWith, hg, hd, wAscend];
     simp [wMoveWith, hg, hd, wAscend, List.length_pos.mpr ht, ht];
     simp [wMoveWith, hg, hd, wAscend];
     simp [wMoveWith, hg, hd, wAscend, List.length_pos.mpr ht, ht];
     simp [wMoveWith, hg, hd, wAscend];
     simp [wMoveWith, hg, hd, wAscend, List.length_pos.mpr ht, ht]]

/-- Claim C8: on every backend, `ascend` called while the stack holds
exactly one frame returns the at-root (nothing-to-do) value and leaves the
state unchanged; and `move_with` fails with the `AscendAtRoot` error exactly
when the decision closure returns `Ascend` while the cursor is at the root,
also leaving the state unchanged in that case. -/
theorem claim_C8 (l : List Nat) (hls : l ≠ []) (d : Nat → SMove)
    (s : RcState) (hss : s.stack ≠ []) (dr : Nat → RcMove)
    (m : MGS) (hms : m.stack ≠ []) (dm : Nat → MMove) (ig : Bool)
    {α : Type} (t : List (Nat × α)) (n : Nat) (a : α)
    (dw : Nat → α → WMove α) :
    (l.length = 1 → sAscend l = (none, l)) ∧
    (s.stack.length = 1 → rcAscend s = (none, s)) ∧
    (m.stack.length = 1 → mAscend m = (none, m)) ∧
    ((t ++ [(n, a)]).length = 1 → wAscend (t ++ [(n, a)]) = (none, t ++ [(n, a)])) ∧
    ((sMoveWith d l).1 = .error .ascendAtRoot ↔
      d (stop l) = .ascend ∧ l.length = 1) ∧
    ((rcMoveWith dr s).1 = .error .ascendAtRoot ↔
      dr s.top = .ascend ∧ s.stack.length = 1) ∧
    ((mMoveWith dm ig m).1 = .error .ascendAtRoot ↔
      dm m.top = .ascend ∧ m.stack.length = 1) ∧
    ((wMoveWith dw (t ++ [(n, a)])).1 = .error .ascendAtRoot ↔
      dw n a = .ascend ∧ (t ++ [(n, a)]).length = 1) ∧
    (d (stop l) = .ascend → l.length = 1 →
      sMoveWith d l = (.error .ascendAtRoot, l)) ∧
    (dr s.top = .ascend → s.stack.length = 1 →
      rcMoveWith dr s = (.error .ascendAtRoot, s)) ∧
    (dm m.top = .ascend → m.stack.length = 1 →
      mMoveWith dm ig m = (.error .ascendAtRoot, m)) ∧
    (dw n a = .ascend → (t ++ [(n, a)]).length = 1 →
      wMoveWith dw (t ++ [(n, a)]) = (.error .ascendAtRoot, t ++ [(n, a)])) := by
  refine ⟨?_, ?_, ?_, ?_,
    sMoveWith_ascendAtRoot_iff d l hls,
    rcMoveWith_ascendAtRoot_iff dr s hss,
    mMoveWith_ascendAtRoot_iff dm ig m hms,
    wMoveWith_ascendAtRoot_iff dw t n a, ?_, ?_, ?_, ?_⟩
  · intro h1
    simp [sAscend, h1]
  · intro h1
    simp [rcAscend, h1]
  · intro h1
    simp [mAscend, h1]
  · intro h1
    have ht : t = [] := by
      simp only [List.length_append, List.length_singleton] at h1
      exact List.eq_nil_of_length_eq_zero (by omega)
    subst ht
    simp [wAscend]
  · intro hd h1
    simp [sMoveWith, hd, sAscend, h1]
  · intro hd h1
    simp [rcMoveWith, hd, rcAscend, h1]
  · intro hd h1
    simp [mMoveWith, hd, mAscend, h1]
  · intro hd h1
    have ht : t = [] := by
      simp only [List.length_append, List.length_singleton] at h1
      exact List.eq_nil_of_length_eq_zero (by omega)
    subst ht
    simp [wMoveWith, hd, wAscend]

/-- Concrete instance of `claim_C8`: one-frame cursors on all four
backends, with decision closures that always say `Ascend`. -/
theorem claim_C8_witness :
    (([7] : List Nat).length = 1 → sAscend [7] = (none, [7])) ∧
    ((RcState.stack { borrows := [3], stack := [3] }).length = 1 →
      rcAscend { borrows := [3], stack := [3] } =
        (none, { borrows := [3], stack := [3] })) ∧
    ((MGS.stack { world := { locked := [4], poisoned := [] }, stack := [4] }).length = 1 →
      mAscend { world := { locked := [4], poisoned := [] }, stack := [4] } =
        (none, { world := { locked := [4], poisoned := [] }, stack := [4] })) ∧
    ((([] : List (Nat × Nat)) ++ [(1, 5)]).length = 1 →
      wAscend (([] : List (Nat × Nat)) ++ [(1, 5)]) =
        (none, ([] : List (Nat × Nat)) ++ [(1, 5)])) ∧
    ((sMoveWith (fun _ => .ascend) [7]).1 = .error .ascendAtRoot ↔
      (fun _ => SMove.ascend) (stop [7]) = .ascend ∧
        ([7] : List Nat).length = 1) ∧
    ((rcMoveWith (fun _ => .ascend) { borrows := [3], stack := [3] }).1 =
        .error .ascendAtRoot ↔
      (fun _ => RcMove.ascend) (RcState.top { borrows := [3], stack := [3] }) = .ascend ∧
        (RcState.stack { borrows := [3], stack := [3] }).length = 1) ∧
    ((mMoveWith (fun _ => .ascend) false
        { world := { locked := [4], poisoned := [] }, stack := [4] }).1 =
        .error .ascendAtRoot ↔
      (fun _ => MMove.ascend)
          (MGS.top { world := { locked := [4], poisoned := [] }, stack := [4] }) = .ascend ∧
        (MGS.stack { world := { locked := [4], poisoned := [] }, stack := [4] }).length = 1) ∧
    ((wMoveWith (fun _ _ => .ascend) (([] : List (Nat × Nat)) ++ [(1, 5)])).1 =
        .error .ascendAtRoot ↔
      (fun _ _ => WMove.ascend (α := Nat)) 1 5 = .ascend ∧
        ((([] : List (Nat × Nat)) ++ [(1, 5)]).length = 1)) ∧
    ((fun _ => SMove.ascend) (stop [7]) = .ascend → ([7] : List Nat).length = 1 →
      sMoveWith (fun _ => .ascend) [7] = (.error .ascendAtRoot, [7])) ∧
    ((fun _ => RcMove.ascend) (RcState.top { borrows := [3], stack := [3] }) = .ascend →
      (RcState.stack { borrows := [3], stack := [3] }).length = 1 →
      rcMoveWith (fun _ => .ascend) { borrows := [3], stack := [3] } =
        (.error .ascendAtRoot, { borrows := [3], stack := [3] })) ∧
    ((fun _ => MMove.ascend)
        (MGS.top { world := { locked := [4], poisoned := [] }, stack := [4] }) = .ascend →
      (MGS.stack { world := { locked := [4], poisoned := [] }, stack := [4] }).length = 1 →
      mMoveWith (fun _ => .ascend) false
          { world := { locked := [4], poisoned := [] }, stack := [4] } =
        (.error .ascendAtRoot,
          { world := { locked := [4], poisoned := [] }, stack := [4] })) ∧
    ((fun _ _ => WMove.ascend (α := Nat)) 1 5 = .ascend →
      ((([] : List (Nat × Nat)) ++ [(1, 5)]).length = 1) →
      wMoveWith (fun _ _ => .ascend) (([] : List (Nat × Nat)) ++ [(1, 5)]) =
        (.error .ascendAtRoot, ([] : List (Nat × Nat)) ++ [(1, 5)])) :=
  claim_C8 [7] (by decide) (fun _ => .ascend)
    { borrows := [3], stack := [3] } (by decide) (fun _ => .ascend)
    { world := { locked := [4], poisoned := [] }, stack := [4] } (by decide)
    (fun _ => .ascend) false
    ([] : List (Nat × Nat)) 1 5 (fun _ _ => .ascend)
